import Mathlib

/-!
Shallow embedding of the `SearchDebuggerView` controller
(`src/src/searchDebugger/SearchDebuggerView.ts`) and the HTTP helper
wrappers (`src/unnamed/part_001`) of the repository, with theorems
settling the specification claims about them.

Conventions of the embedding:
* JS `undefined`/missing values become `Option`.
* A JS `Map<string, number>` becomes an association list
  `List (String × Nat)`.
* Methods that mutate `this` and emit webview messages become functions
  `View → View × List Message` (the second component collects the
  messages handed to `webview.postMessage`, in order).
* JS truthiness tests are translated literally: `if (x)` on a
  `number | undefined` is true exactly when `x` is defined and nonzero.
-/

namespace Plugins

/-! ## HTTP helpers (`src/unnamed/part_001`)

The `request` library invokes the callback with `(error, httpResponse,
body)`.  `error` and `httpResponse` may each be absent; the helpers
inspect them and settle the promise.  We embed one callback invocation:
the helper's behaviour is a pure function of the three callback
arguments. -/

/-- The response object passed to the `request` callback; only its
`statusCode` field is consulted by the helpers. -/
structure HttpResponse where
  statusCode : Nat
deriving DecidableEq, Repr

/-- How the promise returned by a helper settles. -/
inductive HttpOutcome where
  /-- `resolve(body)`; the body may itself be `undefined`. -/
  | resolved (body : Option String)
  /-- `reject(error)` with the transport error. -/
  | rejectedTransport (error : String)
  /-- `reject("HTTP status code " + statusCode)`. -/
  | rejectedStatus (statusCode : Nat)
deriving DecidableEq, Repr

/-- `getJson` (part_001 lines 9–25): reject on a truthy transport error;
otherwise reject when a response object is present with status ≠ 200;
otherwise resolve with the body.  Note the guard `httpResponse && ...`:
with no response object the status check is skipped and the promise
resolves. -/
def getJson (error : Option String) (httpResponse : Option HttpResponse)
    (body : Option String) : HttpOutcome :=
  match error with
  | some e => .rejectedTransport e
  | none =>
    match httpResponse with
    | some r => if r.statusCode ≠ 200 then .rejectedStatus r.statusCode else .resolved body
    | none => .resolved body

/-- `getText` (part_001 lines 27–43): identical control flow to
`getJson`, requiring status exactly 200. -/
def getText (error : Option String) (httpResponse : Option HttpResponse)
    (body : Option String) : HttpOutcome :=
  match error with
  | some e => .rejectedTransport e
  | none =>
    match httpResponse with
    | some r => if r.statusCode ≠ 200 then .rejectedStatus r.statusCode else .resolved body
    | none => .resolved body

/-- `postJson` (part_001 lines 45–61): like `getJson` but the rejection
condition on the status code is `statusCode > 204`. -/
def postJson (error : Option String) (httpResponse : Option HttpResponse)
    (body : Option String) : HttpOutcome :=
  match error with
  | some e => .rejectedTransport e
  | none =>
    match httpResponse with
    | some r => if r.statusCode > 204 then .rejectedStatus r.statusCode else .resolved body
    | none => .resolved body

/-- C8: with a response object present, `getJson`/`getText` resolve with
the body exactly when the status code is 200 and `postJson` exactly when
it is ≤ 204; every other outcome is a rejection carrying the transport
error when one occurred and the status-code message otherwise. -/
theorem http_helpers_success_boundary
    (error : Option String) (httpResponse : Option HttpResponse)
    (body : Option String) (r : HttpResponse)
    (hr : httpResponse = some r) :
    (getJson error httpResponse body = .resolved body ↔
      error = none ∧ r.statusCode = 200) ∧
    (getText error httpResponse body = .resolved body ↔
      error = none ∧ r.statusCode = 200) ∧
    (postJson error httpResponse body = .resolved body ↔
      error = none ∧ r.statusCode ≤ 204) ∧
    (∀ e, error = some e →
      getJson error httpResponse body = .rejectedTransport e ∧
      getText error httpResponse body = .rejectedTransport e ∧
      postJson error httpResponse body = .rejectedTransport e) ∧
    (error = none → r.statusCode ≠ 200 →
      getJson error httpResponse body = .rejectedStatus r.statusCode ∧
      getText error httpResponse body = .rejectedStatus r.statusCode) ∧
    (error = none → r.statusCode > 204 →
      postJson error httpResponse body = .rejectedStatus r.statusCode) := by
  subst hr
  cases error with
  | some e =>
    simp [getJson, getText, postJson]
  | none =>
    by_cases h200 : r.statusCode = 200 <;> by_cases h204 : r.statusCode ≤ 204 <;>
      simp_all [getJson, getText, postJson, Nat.lt_iff_add_one_le]

/-- Witness for `http_helpers_success_boundary` at a concrete response of
status 200 with no transport error. -/
theorem http_helpers_success_boundary_witness :
    (some (HttpResponse.mk 200) = some (HttpResponse.mk 200)) ∧
    (getJson none (some (HttpResponse.mk 200)) (some "ok") =
      .resolved (some "ok") ↔
      (none : Option String) = none ∧ (HttpResponse.mk 200).statusCode = 200) := by
  refine ⟨rfl, ?_⟩
  exact (http_helpers_success_boundary none (some (HttpResponse.mk 200))
    (some "ok") (HttpResponse.mk 200) rfl).1

/-- C10: when the callback supplies neither a transport error nor a
response object, each helper resolves with the (possibly undefined)
body — the status-code check is skipped entirely. -/
theorem http_helpers_no_response_resolves (body : Option String) :
    getJson none none body = .resolved body ∧
    getText none none body = .resolved body ∧
    postJson none none body = .resolved body := by
  refine ⟨rfl, rfl, rfl⟩

/-! ## SearchDebuggerView data model

Translated from `src/src/searchDebugger/SearchDebuggerView.ts`. -/

/-- A search state, as consumed by the view: the internal numeric `id`
and the planner's own string identifier `origId` used for log
correlation (`src/src/searchDebugger/State.ts` is external; only these
two fields are touched by the view). -/
structure SearchState where
  id : Nat
  origId : String
deriving DecidableEq, Repr

/-- The abstract `StateResolver` event source capability the view
consumes: point lookup by internal id and a snapshot of all known
states.  (The concrete resolver lives outside this fragment.) -/
structure StateResolver where
  getState : Nat → Option SearchState
  getStates : List SearchState

/-- The webview panel; the view only reads its `visible` flag. -/
structure Panel where
  visible : Bool
deriving DecidableEq, Repr

/-- The text editor opened onto the state log; the view only reads
`document.isClosed`. -/
structure TextEditor where
  isClosed : Bool
deriving DecidableEq, Repr

/-- The four event kinds of the `StateResolver` subscription surface. -/
inductive EventKind where
  | stateAdded
  | stateUpdated
  | betterState
  | planFound
deriving DecidableEq, Repr

/-- Payload of an outbound webview message (`state` field). -/
inductive Payload where
  | null
  | str (s : String)
  | state (s : SearchState)
  | states (l : List SearchState)
  | debuggerStatus (running : String) (port : Option Nat)
deriving DecidableEq, Repr

/-- An outbound webview message `{command, state}`. -/
structure Message where
  command : String
  state : Payload
deriving DecidableEq, Repr

/-- The mutable fields of `SearchDebuggerView`.  Subscriptions are
tagged with the numeric identity of the observed source so that
"events from the old source" is expressible. -/
structure View where
  webViewPanel : Option Panel
  subscriptions : List (Nat × EventKind)
  search : Option StateResolver
  stateChangedWhileViewHidden : Bool
  stateLogFile : Option String
  stateLogEditor : Option TextEditor
  stateLogLineCache : List (String × Nat)
  domain : Option String
  problem : Option String
  debuggerState : Option Bool
  port : Option Nat

/-- `Map.has` on the correlation cache. -/
def cacheHas (c : List (String × Nat)) (k : String) : Bool :=
  c.any (fun p => p.1 == k)

/-- `Map.get` on the correlation cache (`undefined` ↦ `none`). -/
def cacheGet (c : List (String × Nat)) (k : String) : Option Nat :=
  (c.find? (fun p => p.1 == k)).map (fun p => p.2)

/-- `Map.set` on the correlation cache: replace in place when the key is
present, else append (JS `Map` keeps insertion order). -/
def cacheSet (c : List (String × Nat)) (k : String) (n : Nat) : List (String × Nat) :=
  if cacheHas c k then c.map (fun p => if p.1 == k then (k, n) else p)
  else c ++ [(k, n)]

/-- `postMessage` (lines 399–407): when no panel exists nothing happens;
otherwise the message is handed to the webview and, when the panel is
not visible, `stateChangedWhileViewHidden` is set. -/
def postMessage (v : View) (m : Message) : View × List Message :=
  match v.webViewPanel with
  | none => (v, [])
  | some panel =>
    (if panel.visible then v else { v with stateChangedWhileViewHidden := true }, [m])

/-- JS truthiness of `this.debuggerState ? 'on' : 'off'`. -/
def runningLabel (b : Option Bool) : String :=
  if b = some true then "on" else "off"

/-- `showDebuggerState` (lines 169–176). -/
def showDebuggerState (v : View) : View × List Message :=
  postMessage v
    { command := "debuggerState",
      state := .debuggerStatus (runningLabel v.debuggerState) v.port }

/-- `addState` (lines 178–181); the `new Promise(...).catch` wrapper
only swallows failures, the `postMessage` call runs synchronously. -/
def addState (v : View) (newState : SearchState) : View × List Message :=
  postMessage v { command := "stateAdded", state := .state newState }

/-- `update` (lines 183–186). -/
def update (v : View) (state : SearchState) : View × List Message :=
  postMessage v { command := "stateUpdated", state := .state state }

/-- `showAllStates` (lines 188–192): `this.search?.getStates() ?? []`
fetched at call time, then posted. -/
def showAllStates (v : View) : View × List Message :=
  let allStates := match v.search with
    | some s => s.getStates
    | none => []
  postMessage v { command := "showAllStates", state := .states allStates }

/-- `displayPlan` (lines 393–396). -/
def displayPlan (v : View) (planStates : List SearchState) : View × List Message :=
  postMessage v { command := "showPlan", state := .states planStates }

/-- `changedViewState` (lines 102–113): on a transition with the panel
visible, push the debugger status, then, if the pending flag is set,
re-send all states, and finally reset the flag; otherwise do nothing.
The registered handler (line 97) passes `this.webViewPanel` itself. -/
def changedViewState (v : View) : View × List Message :=
  match v.webViewPanel with
  | none => (v, [])
  | some panel =>
    if panel.visible then
      let r1 := showDebuggerState v
      let r2 := if r1.1.stateChangedWhileViewHidden then showAllStates r1.1 else (r1.1, [])
      ({ r2.1 with stateChangedWhileViewHidden := false }, r1.2 ++ r2.2)
    else (v, [])

/-- Trace of subscription-management side effects performed by
`observe`. -/
inductive SubAction where
  | dispose (src : Nat) (kind : EventKind)
  | subscribe (src : Nat) (kind : EventKind)
deriving DecidableEq, Repr

/-- The order in which `observe` subscribes to the four event kinds
(lines 52–55). -/
def allEventKinds : List EventKind :=
  [.stateAdded, .stateUpdated, .betterState, .planFound]

/-- `observe` (lines 46–56): store the new source, dispose every prior
subscription (in array order), reset the array, then subscribe to the
four event kinds of the new source.  `srcId` is the identity of the
source being observed. -/
def observe (v : View) (srcId : Nat) (search : StateResolver) : View × List SubAction :=
  let disposals := v.subscriptions.map (fun p => SubAction.dispose p.1 p.2)
  let newSubs := allEventKinds.map (fun k => (srcId, k))
  ({ v with search := some search, subscriptions := newSubs },
    disposals ++ newSubs.map (fun p => SubAction.subscribe p.1 p.2))

/-- An event of kind `kind` from source `srcId` reaches the controller
exactly when a live subscription for that pair exists. -/
def handlesEvent (v : View) (srcId : Nat) (kind : EventKind) : Bool :=
  v.subscriptions.any (fun p => p.1 == srcId && p.2 == kind)

/-- `clear` (lines 424–429): post the `clear` command, then empty the
correlation cache and drop domain/problem.  (The log binding fields are
not touched by this method.) -/
def clear (v : View) : View × List Message :=
  let r := postMessage v { command := "clear", state := .str "n/a" }
  ({ r.1 with stateLogLineCache := [], domain := none, problem := none }, r.2)

/-- `toggleStateLog` (lines 431–442): when a log file is bound, post
`stateLog` with `state = null` (the method body contains no assignment
clearing `stateLogFile` or `stateLogEditor`); otherwise prompt for a
file (`selectedUri` is the dialog result), no-op when none chosen, else
bind file and editor and post the file path. -/
def toggleStateLog (v : View) (selectedUri : Option String) : View × List Message :=
  match v.stateLogFile with
  | some _ => postMessage v { command := "stateLog", state := .null }
  | none =>
    match selectedUri with
    | none => (v, [])
    | some uri =>
      let v1 := { v with stateLogFile := some uri,
                         stateLogEditor := some { isClosed := false } }
      postMessage v1 { command := "stateLog", state := .str uri }

/-! ## Log correlation (`scrollStateLog`, lines 444–472) -/

/-- Environment of one `scrollStateLog` run: the lines of the bound log
document and the configured regular expression, abstracted as the
function taking a line to its first capture group on a match (`none`
when the pattern does not match or yields no first group; a group-less
match compares `undefined !== origId` and therefore behaves like
`none`). -/
structure ScrollEnv where
  logDocument : List String
  matchGroup1 : String → Option String

/-- The scan loop of lines 463–471: walk the document from line 0
upward and return the index of the first line whose first capture group
equals `origId` (the loop `break`s there), or `none` when no line
matches. -/
def findLogLine (matchGroup1 : String → Option String) (origId : String) :
    List String → Option Nat
  | [] => none
  | line :: rest =>
    if matchGroup1 line = some origId then some 0
    else (findLogLine matchGroup1 origId rest).map (fun n => n + 1)

/-- `scrollStateLog` (lines 444–472).  The second component is the line
revealed (`revealRange ... AtTop`), `none` when nothing is revealed.
Control flow, in source order: guard on log file, editor and search
being bound; resolve the state id; reopen a closed editor; on a cache
hit reveal the cached line only when it is truthy (`if (cachedLineId)`,
so a cached index 0 reveals nothing) and return without scanning; on a
miss scan the document, and on the first match reveal that line, store
it in the cache and stop. -/
def scrollStateLog (v : View) (env : ScrollEnv) (stateId : Nat) : View × Option Nat :=
  match v.stateLogFile, v.stateLogEditor, v.search with
  | some _, some editor, some search =>
    match search.getState stateId with
    | none => (v, none)
    | some state =>
      let v2 := if editor.isClosed then
          { v with stateLogEditor := some { isClosed := false } } else v
      if cacheHas v2.stateLogLineCache state.origId then
        match cacheGet v2.stateLogLineCache state.origId with
        | some cachedLineId =>
          if cachedLineId ≠ 0 then (v2, some cachedLineId) else (v2, none)
        | none => (v2, none)
      else
        match findLogLine env.matchGroup1 state.origId env.logDocument with
        | some lineIdx =>
          ({ v2 with stateLogLineCache := cacheSet v2.stateLogLineCache state.origId lineIdx },
            some lineIdx)
        | none => (v2, none)
  | _, _, _ => (v, none)

/-! ## The `stateSelected` handler (lines 123–132)

`handleMessage` wraps the three-step sequence

  `this.showStatePlan(...); this.scrollStateLog(...); this.sendRequestToPlanimationApi(...)`

in `try { ... } catch (ex) { window.showErrorMessage(...) }`.
`showStatePlan` and `scrollStateLog` are `async` functions invoked
without `await`: a failure inside either never throws at the call site —
it surfaces as a rejected promise that the surrounding `try/catch`
cannot intercept, and, no `.catch` being attached, escapes the handler
as an unhandled rejection.  `sendRequestToPlanimationApi` is an
ordinary function: a throw in its synchronous part is caught, while its
`fetch(...)` failure is consumed by the attached `.catch(console.log)`
(logged only).  One run of the handler is therefore a pure function of
how each step fails. -/

/-- How the synchronous-or-asynchronous step `sendRequestToPlanimationApi`
fails on a given run. -/
inductive StepFailure where
  /-- the step completes without an exception. -/
  | ok
  /-- a throw in the synchronous part of the call. -/
  | syncThrow (msg : String)
  /-- the `fetch` promise rejects (consumed by its own `.catch`). -/
  | fetchReject (msg : String)
deriving DecidableEq, Repr

/-- One run of the `stateSelected` branch: whether each `async` step's
promise rejects, and how the planimation step fails. -/
structure StateSelectedRun where
  showStatePlanReject : Option String
  scrollStateLogReject : Option String
  planimationOutcome : StepFailure
deriving DecidableEq, Repr

/-- Observable effects of one `stateSelected` handling: the error
messages shown via `window.showErrorMessage`, and the promise
rejections that escape the handler unhandled. -/
structure HandlerEffects where
  errorMessagesShown : List String
  unhandledRejections : List String
deriving DecidableEq, Repr

/-- The `stateSelected` case of `handleMessage` (lines 123–132) under
the semantics described above: only a synchronous throw of the third
step reaches the `catch` and produces the single error message; the
rejections of the two un-awaited `async` steps always escape. -/
def handleStateSelected (r : StateSelectedRun) : HandlerEffects :=
  let escaped := r.showStatePlanReject.toList ++ r.scrollStateLogReject.toList
  match r.planimationOutcome with
  | .syncThrow msg =>
    { errorMessagesShown := ["Error while displaying state-plan: " ++ msg],
      unhandledRejections := escaped }
  | _ => { errorMessagesShown := [], unhandledRejections := escaped }

/-! ## Concrete fixtures used to instantiate theorems -/

/-- A resolver knowing one state, internal id 5 with external id "42". -/
def resolver42 : StateResolver where
  getState := fun stateId => if stateId = 5 then some { id := 5, origId := "42" } else none
  getStates := [{ id := 5, origId := "42" }]

/-- A view with no webview panel and everything else empty. -/
def vNoPanel : View where
  webViewPanel := none
  subscriptions := []
  search := none
  stateChangedWhileViewHidden := false
  stateLogFile := none
  stateLogEditor := none
  stateLogLineCache := []
  domain := none
  problem := none
  debuggerState := none
  port := none

/-- A view with a visible panel, a bound log file and editor, the
resolver above, and an empty correlation cache. -/
def vLogBound : View where
  webViewPanel := some { visible := true }
  subscriptions := []
  search := some resolver42
  stateChangedWhileViewHidden := false
  stateLogFile := some "states.log"
  stateLogEditor := some { isClosed := false }
  stateLogLineCache := []
  domain := some "d"
  problem := some "p"
  debuggerState := some true
  port := some 8888

/-- A matcher standing for the configured pattern `id=(\d+)`: it
extracts the digits on the two shapes of line used in the fixtures and
matches nothing else. -/
def sampleMatcher : String → Option String := fun line =>
  if line = "id=42 expanded" then some "42"
  else if line = "id=7 pruned" then some "7"
  else none

/-- A log document where external id "42" matches on lines 1 and 3. -/
def envSample : ScrollEnv where
  logDocument := ["a:1", "id=42 expanded", "b", "id=42 expanded"]
  matchGroup1 := sampleMatcher

/-! ## Theorems for the claims -/

/-- C9: `postMessage` with no panel is a complete no-op — nothing is
sent and the view (so also the pending-while-hidden flag) is unchanged;
and the flag can only become true through a send while a panel exists
and is not visible. -/
theorem postMessage_no_panel_noop (v : View) (m : Message) :
    (v.webViewPanel = none → postMessage v m = (v, [])) ∧
    ((postMessage v m).1.stateChangedWhileViewHidden = true →
      v.stateChangedWhileViewHidden = true ∨
        ∃ p, v.webViewPanel = some p ∧ p.visible = false) := by
  constructor
  · intro h
    simp [postMessage, h]
  · intro h
    match hp : v.webViewPanel with
    | none =>
      left
      simpa [postMessage, hp] using h
    | some p =>
      by_cases hv : p.visible
      · left
        simpa [postMessage, hp, hv] using h
      · right
        exact ⟨p, rfl, by simpa using hv⟩

/-- Witness for `postMessage_no_panel_noop` at the panel-less view. -/
theorem postMessage_no_panel_noop_witness :
    postMessage vNoPanel { command := "stateAdded", state := .null } = (vNoPanel, []) :=
  (postMessage_no_panel_noop vNoPanel { command := "stateAdded", state := .null }).1 rfl

/-- C3: on a visibility transition with the panel visible, the handler
first pushes the debugger status, then, exactly when the
pending-while-hidden flag was set, a `showAllStates` message whose
payload is the event source's current snapshot, and the flag is false
afterwards. -/
theorem changedViewState_visible_resend (v : View) (p : Panel) (src : StateResolver)
    (hp : v.webViewPanel = some p) (hv : p.visible = true) (hs : v.search = some src) :
    (changedViewState v).1.stateChangedWhileViewHidden = false ∧
    (changedViewState v).2 =
      { command := "debuggerState",
        state := .debuggerStatus (runningLabel v.debuggerState) v.port } ::
      (if v.stateChangedWhileViewHidden then
        [{ command := "showAllStates", state := .states src.getStates }] else []) := by
  cases hflag : v.stateChangedWhileViewHidden <;>
    simp [changedViewState, showDebuggerState, showAllStates, postMessage, hp, hv, hs, hflag]

/-- Witness for `changedViewState_visible_resend`: a visible panel with
the pending flag set re-sends the resolver's snapshot and clears the
flag. -/
theorem changedViewState_visible_resend_witness :
    (changedViewState { vLogBound with stateChangedWhileViewHidden := true
      }).1.stateChangedWhileViewHidden = false ∧
    (changedViewState { vLogBound with stateChangedWhileViewHidden := true }).2 =
      { command := "debuggerState",
        state := .debuggerStatus (runningLabel { vLogBound with
          stateChangedWhileViewHidden := true }.debuggerState)
          { vLogBound with stateChangedWhileViewHidden := true }.port } ::
      (if { vLogBound with stateChangedWhileViewHidden := true }.stateChangedWhileViewHidden then
        [{ command := "showAllStates", state := .states resolver42.getStates }] else []) :=
  changedViewState_visible_resend { vLogBound with stateChangedWhileViewHidden := true }
    { visible := true } resolver42 rfl rfl rfl

/-- C6: a second `observe` call with a different source first disposes
the four subscriptions to the first source (in subscription order) and
then subscribes to the four event kinds of the second source; afterwards
only the second source's events are handled. -/
theorem observe_replaces_subscriptions (v : View) (s1 s2 : Nat)
    (r1 r2 : StateResolver) (hne : s1 ≠ s2) :
    (observe (observe v s1 r1).1 s2 r2).2 =
      (allEventKinds.map (fun k => SubAction.dispose s1 k)) ++
        (allEventKinds.map (fun k => SubAction.subscribe s2 k)) ∧
    (observe (observe v s1 r1).1 s2 r2).1.subscriptions =
      allEventKinds.map (fun k => (s2, k)) ∧
    (∀ k, handlesEvent (observe (observe v s1 r1).1 s2 r2).1 s1 k = false) ∧
    (∀ k, handlesEvent (observe (observe v s1 r1).1 s2 r2).1 s2 k = true) := by
  refine ⟨by simp only [observe]; rfl, by simp [observe], ?_, ?_⟩
  · intro k
    cases k <;> simp [observe, handlesEvent, allEventKinds] <;> omega
  · intro k
    cases k <;> simp [observe, handlesEvent, allEventKinds]

/-- Witness for `observe_replaces_subscriptions` with sources 1 and 2. -/
theorem observe_replaces_subscriptions_witness :
    (observe (observe vNoPanel 1 resolver42).1 2 resolver42).2 =
      (allEventKinds.map (fun k => SubAction.dispose 1 k)) ++
        (allEventKinds.map (fun k => SubAction.subscribe 2 k)) ∧
    (observe (observe vNoPanel 1 resolver42).1 2 resolver42).1.subscriptions =
      allEventKinds.map (fun k => (2, k)) ∧
    (∀ k, handlesEvent (observe (observe vNoPanel 1 resolver42).1 2 resolver42).1 1 k = false) ∧
    (∀ k, handlesEvent (observe (observe vNoPanel 1 resolver42).1 2 resolver42).1 2 k = true) :=
  observe_replaces_subscriptions vNoPanel 1 2 resolver42 resolver42 (by decide)

/-- The scan loop returns the index of the first matching line: if line
`i` matches and no earlier line does, `findLogLine` yields `some i`. -/
theorem findLogLine_eq_first_match (m : String → Option String) (origId : String) :
    ∀ (lines : List String) (i : Nat) (li : String),
      lines.get? i = some li → m li = some origId →
      (∀ k, k < i → ∀ lk, lines.get? k = some lk → m lk ≠ some origId) →
      findLogLine m origId lines = some i := by
  intro lines
  induction lines with
  | nil =>
    intro i li h
    simp at h
  | cons head tail ih =>
    intro i li hget hmatch hfirst
    cases i with
    | zero =>
      simp only [List.get?_cons_zero, Option.some.injEq] at hget
      subst hget
      simp [findLogLine, hmatch]
    | succ n =>
      have hhead : ¬ m head = some origId := hfirst 0 (Nat.succ_pos n) head rfl
      have htail : findLogLine m origId tail = some n :=
        ih n li (by simpa using hget) hmatch
          (fun k hk lk hgk => hfirst (k + 1) (by omega) lk (by simpa using hgk))
      simp [findLogLine, hhead, htail]

/-- C2: on a cache miss (with log file, open editor and search bound and
the state id resolving), `scrollStateLog` scans from line 0 upward; when
line `i` is the first whose first capture group equals the state's
external id — in particular when the same id also matches on a later
line `j > i` — it reveals line `i`, memoizes `origId ↦ i`, and the
resulting view differs from the input only in that cache entry. -/
theorem scrollStateLog_miss_first_match
    (v : View) (env : ScrollEnv) (stateId : Nat)
    (editor : TextEditor) (search : StateResolver) (state : SearchState)
    (f : String) (i : Nat) (li : String)
    (hf : v.stateLogFile = some f) (he : v.stateLogEditor = some editor)
    (hcl : editor.isClosed = false)
    (hs : v.search = some search) (hst : search.getState stateId = some state)
    (hmiss : cacheHas v.stateLogLineCache state.origId = false)
    (hget : env.logDocument.get? i = some li)
    (hmatch : env.matchGroup1 li = some state.origId)
    (hfirst : ∀ k, k < i → ∀ lk, env.logDocument.get? k = some lk →
      env.matchGroup1 lk ≠ some state.origId) :
    scrollStateLog v env stateId =
      ({ v with stateLogLineCache := cacheSet v.stateLogLineCache state.origId i },
        some i) := by
  have hfind : findLogLine env.matchGroup1 state.origId env.logDocument = some i :=
    findLogLine_eq_first_match env.matchGroup1 state.origId env.logDocument i li
      hget hmatch hfirst
  simp [scrollStateLog, hf, he, hs, hst, hcl, hmiss, hfind]

/-- Witness for `scrollStateLog_miss_first_match`: external id "42"
matches on lines 1 and 3 of the sample log; the scan reveals and caches
line 1. -/
theorem scrollStateLog_miss_first_match_witness :
    scrollStateLog vLogBound envSample 5 =
      ({ vLogBound with
          stateLogLineCache := cacheSet vLogBound.stateLogLineCache "42" 1 },
        some 1) :=
  scrollStateLog_miss_first_match vLogBound envSample 5
    { isClosed := false } resolver42 { id := 5, origId := "42" }
    "states.log" 1 "id=42 expanded"
    rfl rfl rfl rfl (by decide) (by decide) rfl (by decide) (by decide)

/-- C1 (code bug): with the mapping "42" ↦ line 0 already cached and the
log still containing a matching line, a scroll request reveals nothing —
the cache-hit branch guards the reveal with the JS truthiness test
`if (cachedLineId)`, which is false for the valid line index 0 — while
the claim (and the cache-hit design) says the cached line is revealed.
The cache is left unchanged (no re-scan happens), and the third conjunct
records that a scan of the same document would find the id on line 1. -/
theorem scrollStateLog_cached_zero_reveals_nothing :
    (scrollStateLog { vLogBound with stateLogLineCache := [("42", 0)] } envSample 5).2
      = none ∧
    (scrollStateLog { vLogBound with stateLogLineCache := [("42", 0)] }
        envSample 5).1.stateLogLineCache = [("42", 0)] ∧
    findLogLine envSample.matchGroup1 "42" envSample.logDocument = some 1 := by
  refine ⟨by decide, by decide, by decide⟩

/-- C4 (code bug): invoking `toggleStateLog` while a log file is bound
posts `stateLog` with `state = null` but leaves `stateLogFile` and
`stateLogEditor` bound — the method body never clears them, so the
"toggle" can never unbind and the claimed post-state "no log file is
bound" does not hold. -/
theorem toggleStateLog_bound_keeps_binding :
    (toggleStateLog vLogBound none).1.stateLogFile = some "states.log" ∧
    (toggleStateLog vLogBound none).1.stateLogEditor = some { isClosed := false } ∧
    (toggleStateLog vLogBound none).2 =
      [{ command := "stateLog", state := Payload.null }] := by
  refine ⟨by decide, by decide, by decide⟩

/-- C5 counterexample: running `clear()` on a view with a bound log file
and a populated cache empties the cache but leaves the log binding in
place, refuting "the cache and the log target binding are cleared
together". -/
theorem clear_leaves_log_binding :
    (clear { vLogBound with stateLogLineCache := [("42", 1)] }).1.stateLogLineCache
      = [] ∧
    (clear { vLogBound with stateLogLineCache := [("42", 1)] }).1.stateLogFile
      = some "states.log" ∧
    ¬ ((clear { vLogBound with stateLogLineCache := [("42", 1)] }).1.stateLogFile = none ∧
       (clear { vLogBound with stateLogLineCache := [("42", 1)] }).1.stateLogEditor = none) := by
  refine ⟨by decide, by decide, ?_⟩
  intro h
  exact absurd h.1 (by decide)

/-- C5 amended: `clear()` always empties the correlation cache and
resets domain and problem, and always leaves the log target binding
(log file and log editor) exactly as it was. -/
theorem clear_resets_cache_not_binding (v : View) :
    (clear v).1.stateLogLineCache = [] ∧
    (clear v).1.domain = none ∧
    (clear v).1.problem = none ∧
    (clear v).1.stateLogFile = v.stateLogFile ∧
    (clear v).1.stateLogEditor = v.stateLogEditor := by
  match hp : v.webViewPanel with
  | none =>
    simp [clear, postMessage, hp]
  | some p =>
    by_cases hv : p.visible <;> simp [clear, postMessage, hp, hv]

/-- C7 (code bug): when `showStatePlan` fails (its promise rejects,
e.g. the report generator throws) and the other two steps succeed, the
`stateSelected` handler shows no error message and the rejection escapes
the handler unhandled — the `try/catch` of lines 123–132 cannot
intercept a rejection of an `async` call made without `await`, contrary
to the claim that any exception in the three-step sequence is caught and
shown. -/
theorem stateSelected_async_rejection_escapes :
    handleStateSelected
      { showStatePlanReject := some "boom",
        scrollStateLogReject := none,
        planimationOutcome := .ok } =
      { errorMessagesShown := [], unhandledRejections := ["boom"] } := rfl

end Plugins
